import Mathlib

/-!
# Keyboard Manager: engine entry point and "Remap keys" editor window

A trace embedding of

* `src/modules/keyboardmanager/KeyboardManagerEngine/main.cpp` (`wWinMain`), and
* `src/modules/keyboardmanager/KeyboardManagerEditorLibrary/EditKeyboardWindow.cpp`
  (`OrphanKeysConfirmationDialog`, `OnClickAccept`, `CreateEditKeyboardWindowImpl`,
  `CreateEditKeyboardWindow`).

Both files are sequences of calls into the operating system and into collaborators
whose bodies live elsewhere.  Every such call becomes one event of a trace, in
program order; every value a call hands back (a handle, an error code, the answer a
user gives to a dialog) is an input of the embedding.  Events record what the code
does, never what the callee answered, so that two runs can be compared call by call.
-/

/-- Win32 `DWORD`; used for key codes, thread ids and error codes (none is computed with). -/
abbrev DWORD := Nat

/-- Win32 handles (`HANDLE`, `HWND`); a null handle is `none` of `Option HANDLE`. -/
abbrev HANDLE := Nat

/-- The text of a `std::wstring`. -/
abbrev WString := List Char

/-- Windows SDK `ERROR_SUCCESS`. -/
def ERROR_SUCCESS : Int := 0

/-- Windows SDK `ERROR_ALREADY_EXISTS`. -/
def ERROR_ALREADY_EXISTS : DWORD := 183

/-- Windows SDK `WM_CLOSE`. -/
def WM_CLOSE : Nat := 0x0010

/-- Windows SDK `WM_QUIT`. -/
def WM_QUIT : Nat := 0x0012

namespace KBMEngine

/-- The calls `wWinMain` and its parent-exit callback make, one constructor per callee.
`Logger_*` carries the source line of the call in `main.cpp` in place of the message text. -/
inductive Event where
  | init_apartment
  | init_logger
  | InitUnhandledExceptionHandler_x64
  | CreateMutex
  | Logger_error (line : Nat)
  | Logger_warn (line : Nat)
  | Logger_trace (line : Nat)
  | RegisterProvider
  | GetCurrentThreadId
  /-- Call of `ProcessWaiter::OnProcessTerminate(pid, callback)`; the lambda is stored as the
  one variable it captures, `mainThreadId`, and its body is `parentExitCallback`. -/
  | OnProcessTerminate (pid : WString) (mainThreadId : DWORD)
  | StartLowlevelKeyboardHook
  | run_message_loop
  | StopLowlevelKeyboardHook
  | UnregisterProvider
  | PostThreadMessage (threadId : DWORD) (msg : Nat) (wParam lParam : Nat)
  deriving DecidableEq, Repr

/-- What the environment answers to the calls of `wWinMain`. -/
structure Env where
  /-- Result of `CreateMutex` (line 23); `none` is `nullptr`. -/
  mutex : Option HANDLE
  /-- Value of `GetLastError()` in the test of line 29.  (The call of line 26 only feeds the
  text of a log message.) -/
  lastError : DWORD
  /-- Result of `GetCurrentThreadId()` on the main thread (line 40). -/
  currentThreadId : DWORD
  /-- Whether `StartLowlevelKeyboardHook` (line 57) managed to install the hook.  The call is
  a statement: `wWinMain` receives nothing from it. -/
  hookInstalls : Bool
  /-- Whether `run_message_loop` (line 59) ever comes back, that is, whether a `WM_QUIT`
  reaches the main thread. -/
  messageLoopReturns : Bool
  deriving DecidableEq, Repr

/-- A run of `wWinMain`: the calls made, and the exit code when the function returns
(`none` when it is still inside `run_message_loop`). -/
structure Run where
  exitCode : Option Int
  trace : List Event
  deriving DecidableEq, Repr

/-- Body of the lambda of `main.cpp` lines 41-53, with its capture `mainThreadId`. -/
def parentExitCallback (mainThreadId : DWORD) (err : Int) : List Event :=
  (if err ≠ ERROR_SUCCESS then [Event.Logger_error 44] else [Event.Logger_trace 48])
    ++ [Event.Logger_trace 51, Event.PostThreadMessage mainThreadId WM_QUIT 0 0]

/-- Lines 37-54 of `main.cpp`: the parent-process waiter, registered for a non-empty
command line only. -/
def registerParentWaiter (env : Env) (pid : WString) : List Event :=
  if !pid.isEmpty then
    [Event.GetCurrentThreadId, Event.OnProcessTerminate pid env.currentThreadId]
  else []

/-- `wWinMain` of `main.cpp`, lines 16-65. -/
def wWinMain (env : Env) (lpCmdLine : WString) : Run :=
  let start :=
    [Event.init_apartment, Event.init_logger, Event.InitUnhandledExceptionHandler_x64,
      Event.CreateMutex]
      ++ (if env.mutex.isNone then [Event.Logger_error 26] else [])
  if env.lastError = ERROR_ALREADY_EXISTS then
    { exitCode := some 0, trace := start ++ [Event.Logger_warn 31] }
  else
    let beforeLoop :=
      start ++ [Event.RegisterProvider] ++ registerParentWaiter env lpCmdLine
        ++ [Event.StartLowlevelKeyboardHook, Event.run_message_loop]
    if env.messageLoopReturns then
      { exitCode := some 0,
        trace := beforeLoop ++ [Event.StopLowlevelKeyboardHook, Event.UnregisterProvider] }
    else
      { exitCode := none, trace := beforeLoop }

/-- The two resources `wWinMain` owns, as left behind by a sequence of calls. -/
structure Resources where
  hookInstalled : Bool
  providerRegistered : Bool
  deriving DecidableEq, Repr

/-- Effect of one call on the owned resources. -/
def Resources.step (r : Resources) : Event → Resources
  | .StartLowlevelKeyboardHook => { r with hookInstalled := true }
  | .StopLowlevelKeyboardHook => { r with hookInstalled := false }
  | .RegisterProvider => { r with providerRegistered := true }
  | .UnregisterProvider => { r with providerRegistered := false }
  | _ => r

/-- Resources held after a trace, starting with none. -/
def resourcesAfter (t : List Event) : Resources :=
  t.foldl Resources.step { hookInstalled := false, providerRegistered := false }

/-- The calls that acquire or give back one of the two owned resources. -/
def Event.isLifecycle : Event → Bool
  | .StartLowlevelKeyboardHook | .StopLowlevelKeyboardHook
  | .RegisterProvider | .UnregisterProvider => true
  | _ => false

/-- Calls of `ProcessWaiter::OnProcessTerminate`, whatever their arguments. -/
def Event.isOnProcessTerminate : Event → Bool
  | .OnProcessTerminate _ _ => true
  | _ => false

/-- Calls of `PostThreadMessage`, whatever their arguments. -/
def Event.isPostThreadMessage : Event → Bool
  | .PostThreadMessage _ _ _ _ => true
  | _ => false

/-- A first instance started by the runner, process id `4242` on its command line; the
message loop ends. -/
def firstInstance : Env :=
  { mutex := some 1, lastError := 0, currentThreadId := 7, hookInstalls := true,
    messageLoopReturns := true }

/-- A second instance: the mutex is opened, and `GetLastError` gives
`ERROR_ALREADY_EXISTS`. -/
def secondInstance : Env :=
  { mutex := some 1, lastError := 183, currentThreadId := 7, hookInstalls := true,
    messageLoopReturns := true }

/-- A first instance in which the operating system refuses the keyboard hook. -/
def hookRefused : Env :=
  { mutex := some 1, lastError := 0, currentThreadId := 7, hookInstalls := false,
    messageLoopReturns := true }

end KBMEngine

namespace KBMEditor

/-- Modelled from the spec: `ErrorTypes.h` (`KeyboardManagerHelper::ErrorType`) is not among
the sources.  `NoError` is the one value the editor window names; the other two are the
validation failures of the spec, `ConflictError` (two entries share source and scope) and
`PartialMappingError`. -/
inductive ErrorType where
  | NoError
  | ConflictError
  | PartialMappingError
  deriving DecidableEq, Repr

/-- WinRT `ContentDialogResult`, the value `ContentDialog::ShowAsync` completes with. -/
inductive ContentDialogResult where
  | None
  | Primary
  | Secondary
  deriving DecidableEq, Repr

/-- The calls made by `EditKeyboardWindow.cpp`, one constructor per callee.  `Logger_*` and
`MessageBox` carry the source line of the call in place of their text; `xaml a b` stands for
the branch-free XAML widget construction of lines `a` to `b`. -/
inductive Event where
  | Logger_trace (line : Nat)
  | Logger_error (line : Nat)
  | Logger_flush
  | EventLocker_Get
  /-- Destructor of the `EventLocker` held by the local `locker`: it resets the event, which
  lets the engine resume. -/
  | EventLocker_release
  | LoadImageW
  | RegisterClassEx
  | MessageBox (line : Nat)
  | GetForegroundWindowDesktopRect
  | DPIAware_Convert
  | CreateWindow
  | SetForegroundWindow (hwnd : HANDLE)
  | mutex_lock
  | mutex_unlock
  | XamlBridge (hwnd : HANDLE)
  | InitDesktopWindowsXamlSource
  | xaml (firstLine lastLine : Nat)
  | singleKeyRemapBuffer_clear
  | SetUIState (hwnd : HANDLE)
  | PreProcessRemapTable
  | AddNewControlKeyRemapRow (row : Option (DWORD × DWORD))
  | ShowWindow (hwnd : HANDLE)
  | UpdateWindow (hwnd : HANDLE)
  | MessageLoop
  | ChangeView
  | SetFocusOnTypeButtonInLastRow
  | CheckIfRemappingsAreValid
  | PartialRemappingConfirmationDialog
  | GetOrphanedKeys
  /-- Showing of the orphan-keys `ContentDialog`, with the text of its content block. -/
  | ContentDialog_ShowAsync (text : WString)
  /-- Invocation of the `std::function` handed to `OnClickAccept` (line 97); the calls of its
  body follow it in the trace. -/
  | ApplyRemappings
  | ApplySingleKeyRemappings
  | SaveConfigToFile
  | PostMessage (hwnd : HANDLE) (msg : Nat)
  | ResetUIState
  | ClearRegisteredKeyDelays
  | ClearXamlIslands
  | GetCurrentProcessId
  | TerminateProcess (exitCode : Nat)
  deriving DecidableEq, Repr

/-- What the environment and the user answer during one click on the apply button. -/
structure AcceptAnswers where
  /-- Result of `CheckIfRemappingsAreValid` (line 76). -/
  isSuccess : ErrorType
  /-- Answer to `Dialog::PartialRemappingConfirmationDialog` (line 80), if it is shown. -/
  partialConfirmed : Bool
  /-- Result of `GetOrphanedKeys` (line 88). -/
  orphanedKeys : List DWORD
  /-- Button the orphan-keys dialog is closed with (line 69), if it is shown. -/
  orphanResult : ContentDialogResult
  /-- Result of `SaveConfigToFile` (line 280), if it is called. -/
  saveResult : Bool
  deriving DecidableEq, Repr

/-- The clicks whose handlers `CreateEditKeyboardWindowImpl` installs. -/
inductive UIInput where
  | cancelClick
  | applyClick (answers : AcceptAnswers)
  | addRemapKeyClick
  deriving DecidableEq, Repr

/-- `size_t` arithmetic is modulo this (the editor is an x64 build). -/
def SIZE_T_MOD : Nat := 2 ^ 64

/-- Lines 57-64: the keys' names, each followed by `", "`, then
`substr(0, max(0, length() - 2))`.  `length() - 2` is `size_t` arithmetic, and `max` is the
Windows macro `((a) > (b)) ? (a) : (b)` compared as unsigned. -/
def orphanKeyString (GetKeyName : DWORD → WString) (keys : List DWORD) : WString :=
  let appended := keys.foldl (fun acc k => acc ++ GetKeyName k ++ [',', ' ']) []
  let lengthMinus2 := (appended.length + SIZE_T_MOD - 2) % SIZE_T_MOD
  let count := if 0 > lengthMinus2 then 0 else lengthMinus2
  appended.take count

/-- `OrphanKeysConfirmationDialog`, lines 41-72: the value returned and the calls made. -/
def OrphanKeysConfirmationDialog (GetKeyName : DWORD → WString) (keys : List DWORD)
    (res : ContentDialogResult) : Bool × List Event :=
  (res == ContentDialogResult.Primary,
    [Event.ContentDialog_ShowAsync (orphanKeyString GetKeyName keys)])

/-- Body of the lambda `ApplyRemappings`, lines 278-282, with its capture
`_hWndEditKeyboardWindow` and the value `SaveConfigToFile` returns. -/
def ApplyRemappings (hwnd : HANDLE) (saveResult : Bool) : List Event :=
  let _saveResult := saveResult
  [Event.ApplySingleKeyRemappings, Event.SaveConfigToFile, Event.PostMessage hwnd WM_CLOSE]

/-- `OnClickAccept`, lines 74-98.  `applyRemappings` is the trace of the callback. -/
def OnClickAccept (GetKeyName : DWORD → WString) (a : AcceptAnswers)
    (applyRemappings : List Event) : List Event :=
  let validation := [Event.CheckIfRemappingsAreValid]
  let partialDialog :=
    if a.isSuccess ≠ ErrorType.NoError then [Event.PartialRemappingConfirmationDialog] else []
  if a.isSuccess ≠ ErrorType.NoError ∧ a.partialConfirmed = false then
    validation ++ partialDialog
  else
    let orphan := OrphanKeysConfirmationDialog GetKeyName a.orphanedKeys a.orphanResult
    let orphanDialog := if a.orphanedKeys.length > 0 then orphan.2 else []
    if a.orphanedKeys.length > 0 ∧ orphan.1 = false then
      validation ++ partialDialog ++ [Event.GetOrphanedKeys] ++ orphanDialog
    else
      validation ++ partialDialog ++ [Event.GetOrphanedKeys] ++ orphanDialog
        ++ [Event.ApplyRemappings] ++ applyRemappings

/-- Click handlers installed by `CreateEditKeyboardWindowImpl`: `cancelButton` (lines
205-208), `applyButton` (284-286) and `addRemapKey` (305-313). -/
def clickHandler (GetKeyName : DWORD → WString) (hwnd : HANDLE) : UIInput → List Event
  | .cancelClick => [Event.PostMessage hwnd WM_CLOSE]
  | .applyClick a => OnClickAccept GetKeyName a (ApplyRemappings hwnd a.saveResult)
  | .addRemapKeyClick =>
      [Event.AddNewControlKeyRemapRow none, Event.ChangeView,
        Event.SetFocusOnTypeButtonInLastRow]

/-- File-scope variables of `EditKeyboardWindow.cpp` (lines 29-39); `xamlBridgePtr` is kept
as whether it is non-null. -/
structure Globals where
  hWndXamlIslandEditKeyboardWindow : Option HANDLE
  isEditKeyboardWindowRegistrationCompleted : Bool
  hwndEditKeyboardNativeWindow : Option HANDLE
  xamlBridgePtr : Bool
  deriving DecidableEq, Repr

/-- What the environment answers to the calls of `CreateEditKeyboardWindowImpl`. -/
structure Env where
  /-- Result of `EventLocker::Get` (line 104); `none` is an empty optional. -/
  locker : Option HANDLE
  /-- Whether `RegisterClassEx` (line 130) returns non-null. -/
  registerClassOk : Bool
  /-- Result of `CreateWindow` (line 148); `none` is `NULL`. -/
  window : Option HANDLE
  /-- Result of `InitDesktopWindowsXamlSource` (line 185). -/
  xamlIsland : Option HANDLE
  /-- Entries of `singleKeyRemapCopy` after `PreProcessRemapTable`, in iteration order; the
  mapped-to value is kept as a code. -/
  singleKeyRemapCopy : List (DWORD × DWORD)
  /-- The map `state.keyboardMap.GetKeyName`. -/
  GetKeyName : DWORD → WString
  /-- Clicks dispatched while `xamlBridge.MessageLoop()` runs, in order. -/
  clicks : List UIInput
  /-- Whether `xamlBridge.MessageLoop()` (line 361) ever comes back. -/
  messageLoopReturns : Bool

/-- A run of `CreateEditKeyboardWindowImpl`: whether it returns, the file-scope variables it
leaves, and the calls made. -/
structure Run where
  returned : Bool
  globals : Globals
  trace : List Event
  deriving DecidableEq, Repr

/-- Destructors of the locals that matter at a `return` of `CreateEditKeyboardWindowImpl`:
`hwndLock` (declared line 174, holding the mutex only after line 366) and then `locker`
(declared first, line 104, hence destroyed last).  An empty optional releases nothing.  The
XAML objects declared in between make none of the calls recorded in a trace when they are
destroyed. -/
def scopeExit (env : Env) (hwndLockHeld : Bool) : List Event :=
  (if hwndLockHeld then [Event.mutex_unlock] else [])
    ++ (if env.locker.isSome then [Event.EventLocker_release] else [])

/-- Lines 103-110: taking the suspension signal. -/
def acquireLocker (env : Env) : List Event :=
  [Event.Logger_trace 103, Event.EventLocker_Get]
    ++ (if env.locker.isNone then [Event.Logger_error 107] else [])
    ++ [Event.Logger_trace 110]

/-- Lines 167-358 for a created window `hwnd`: everything between window creation and the
message loop. -/
def setUpWindow (env : Env) (hwnd : HANDLE) : List Event :=
  [Event.SetForegroundWindow hwnd, Event.mutex_lock, Event.mutex_unlock,
    Event.XamlBridge hwnd, Event.InitDesktopWindowsXamlSource, Event.xaml 190 248,
    Event.singleKeyRemapBuffer_clear, Event.SetUIState hwnd, Event.PreProcessRemapTable]
    ++ env.singleKeyRemapCopy.map (fun row => Event.AddNewControlKeyRemapRow (some row))
    ++ [Event.xaml 269 352, Event.ShowWindow hwnd, Event.UpdateWindow hwnd]

/-- Line 361: the message loop and the click handlers it dispatches, in the order of the
clicks. -/
def runMessageLoop (env : Env) (hwnd : HANDLE) : List Event :=
  Event.MessageLoop :: env.clicks.flatMap (clickHandler env.GetKeyName hwnd)

/-- Lines 363-372: teardown after the message loop. -/
def tearDown : List Event :=
  [Event.mutex_lock, Event.ResetUIState, Event.ClearRegisteredKeyDelays,
    Event.ClearXamlIslands]

/-- `CreateEditKeyboardWindowImpl`, lines 101-373. -/
def CreateEditKeyboardWindowImpl (env : Env) (g : Globals) : Run :=
  let registration :=
    if !g.isEditKeyboardWindowRegistrationCompleted then
      [Event.LoadImageW, Event.RegisterClassEx]
    else []
  if !g.isEditKeyboardWindowRegistrationCompleted && !env.registerClassOk then
    { returned := true, globals := g,
      trace := acquireLocker env ++ registration ++ [Event.MessageBox 132]
        ++ scopeExit env false }
  else
    let g1 := { g with isEditKeyboardWindowRegistrationCompleted := true }
    let creation :=
      [Event.GetForegroundWindowDesktopRect, Event.DPIAware_Convert, Event.CreateWindow]
    match env.window with
    | none =>
      { returned := true, globals := g1,
        trace := acquireLocker env ++ registration ++ creation ++ [Event.MessageBox 163]
          ++ scopeExit env false }
    | some hwnd =>
      let beforeReturn :=
        acquireLocker env ++ registration ++ creation ++ setUpWindow env hwnd
          ++ runMessageLoop env hwnd
      if env.messageLoopReturns then
        { returned := true,
          globals := { g1 with
            xamlBridgePtr := false
            hWndXamlIslandEditKeyboardWindow := none
            hwndEditKeyboardNativeWindow := none },
          trace := beforeReturn ++ tearDown ++ scopeExit env true }
      else
        { returned := false,
          globals := { g1 with
            hwndEditKeyboardNativeWindow := some hwnd
            hWndXamlIslandEditKeyboardWindow := env.xamlIsland
            xamlBridgePtr := true },
          trace := beforeReturn }

/-- `CreateEditKeyboardWindow`, lines 375-385: what follows the return of the
implementation. -/
def CreateEditKeyboardWindow (env : Env) (g : Globals) : List Event :=
  let run := CreateEditKeyboardWindowImpl env g
  if run.returned then
    run.trace ++ [Event.GetCurrentProcessId, Event.Logger_trace 382, Event.Logger_flush,
      Event.TerminateProcess 0]
  else run.trace

/-- The release of the suspension locker, which only a run that holds one can make. -/
def Event.isLockerRelease : Event → Bool
  | .EventLocker_release => true
  | _ => false

/-- Showings of the orphan-keys dialog, whatever the text. -/
def Event.isOrphanDialog : Event → Bool
  | .ContentDialog_ShowAsync _ => true
  | _ => false

/-- A hard conflict reported by validation, confirmed by the user in the partial-remapping
dialog; no orphaned key; the save succeeds. -/
def conflictConfirmed : AcceptAnswers :=
  { isSuccess := ErrorType.ConflictError, partialConfirmed := true, orphanedKeys := [],
    orphanResult := ContentDialogResult.None, saveResult := true }

/-- A hard conflict reported by validation, declined by the user in the partial-remapping
dialog, with one orphaned key whose dialog would be confirmed. -/
def conflictDeclined : AcceptAnswers :=
  { isSuccess := ErrorType.ConflictError, partialConfirmed := false, orphanedKeys := [65],
    orphanResult := ContentDialogResult.Primary, saveResult := true }

/-- A hard conflict reported by validation and confirmed by the user in the
partial-remapping dialog, with one orphaned key whose dialog the user closes with the
secondary button. -/
def conflictConfirmedOrphanRefused : AcceptAnswers :=
  { isSuccess := ErrorType.ConflictError, partialConfirmed := true, orphanedKeys := [65],
    orphanResult := ContentDialogResult.Secondary, saveResult := true }

/-- Key names used by the sample runs: every key is called `K`. -/
def sampleKeyName : DWORD → WString := fun _ => ['K']

/-- A sample run: the locker is held, the class registers, the window is created, one
remapping is loaded, the user clicks apply on a clean table and the message loop ends. -/
def sampleEnv : Env :=
  { locker := some 5, registerClassOk := true, window := some 9, xamlIsland := some 11,
    singleKeyRemapCopy := [(65, 66)], GetKeyName := sampleKeyName,
    clicks := [UIInput.applyClick
      { isSuccess := ErrorType.NoError, partialConfirmed := false, orphanedKeys := [],
        orphanResult := ContentDialogResult.None, saveResult := true }],
    messageLoopReturns := true }

/-- File-scope variables at process start. -/
def initialGlobals : Globals :=
  { hWndXamlIslandEditKeyboardWindow := none,
    isEditKeyboardWindowRegistrationCompleted := false,
    hwndEditKeyboardNativeWindow := none, xamlBridgePtr := false }

/-- Lines 57-62: the string the loop of `OrphanKeysConfirmationDialog` builds, each key's
name followed by `", "`. -/
def orphanKeyAppended (GetKeyName : DWORD → WString) (keys : List DWORD) : WString :=
  keys.foldl (fun acc k => acc ++ GetKeyName k ++ [',', ' ']) []

/-- Line 64: `orphanKeyString.length() - 2`, computed in `size_t`. -/
def orphanKeyLengthMinus2 (GetKeyName : DWORD → WString) (keys : List DWORD) : Nat :=
  ((orphanKeyAppended GetKeyName keys).length + SIZE_T_MOD - 2) % SIZE_T_MOD

/-- C++ `std::basic_string::substr(pos, count)`: the characters from `pos` on, at most
`count` of them; `none` stands for the `std::out_of_range` thrown when `pos > size()`. -/
def substr (s : WString) (pos count : Nat) : Option WString :=
  if pos > s.length then none else some ((s.drop pos).take count)

/-- The calls of the commit protocol: taking and releasing the suspension locker, swapping
the live table, saving it, and posting a message to the window. -/
def Event.isCommitStep : Event → Bool
  | .EventLocker_Get | .EventLocker_release | .ApplySingleKeyRemappings
  | .SaveConfigToFile | .PostMessage _ _ => true
  | _ => false

/-- What one click amounts to in the commit protocol, in the words of the specification: an
accepted apply swaps the table, persists it and then asks the window to close; a cancel only
asks the window to close; a declined apply and a new row do nothing. -/
def commitSteps (hwnd : HANDLE) : UIInput → List Event
  | .applyClick a =>
      if (a.isSuccess = ErrorType.NoError ∨ a.partialConfirmed = true)
          ∧ (a.orphanedKeys = [] ∨ a.orphanResult = ContentDialogResult.Primary) then
        [Event.ApplySingleKeyRemappings, Event.SaveConfigToFile,
          Event.PostMessage hwnd WM_CLOSE]
      else []
  | .cancelClick => [Event.PostMessage hwnd WM_CLOSE]
  | .addRemapKeyClick => []

/-- The window whose message loop a run of `CreateEditKeyboardWindowImpl` enters: none when
class registration fails (line 133) or `CreateWindow` gives `NULL` (line 164). -/
def openedWindow (env : Env) (g : Globals) : Option HANDLE :=
  if !g.isEditKeyboardWindowRegistrationCompleted && !env.registerClassOk then none
  else env.window

/-- Key names of three keys with names of different lengths, one of them empty. -/
def threeKeyNames : DWORD → WString
  | 65 => ['A']
  | 162 => ['C', 't', 'r', 'l']
  | _ => []

/-- A run with three clicks: a new row, an apply that the user declines in the
partial-remapping dialog, and an apply on a clean table with one orphaned key that the user
confirms. -/
def acceptAfterDecline : Env :=
  { locker := some 5, registerClassOk := true, window := some 9, xamlIsland := some 11,
    singleKeyRemapCopy := [(65, 66)], GetKeyName := threeKeyNames,
    clicks := [UIInput.addRemapKeyClick,
      UIInput.applyClick
        { isSuccess := ErrorType.PartialMappingError, partialConfirmed := false,
          orphanedKeys := [], orphanResult := ContentDialogResult.None,
          saveResult := true },
      UIInput.applyClick
        { isSuccess := ErrorType.NoError, partialConfirmed := false, orphanedKeys := [65],
          orphanResult := ContentDialogResult.Primary, saveResult := false }],
    messageLoopReturns := true }

end KBMEditor

/-! ## The apply button: `OnClickAccept` -/

namespace KBMEditor

/-- C1. For every validation result, orphan list and pair of dialog answers, `OnClickAccept`
invokes `ApplyRemappings` exactly once if (validation gave `NoError` or the
partial-remapping dialog was confirmed) and (the orphan list is empty or the orphan-keys
dialog was confirmed), and not at all otherwise; the partial-remapping dialog is shown iff
validation did not give `NoError`, and the orphan-keys dialog is shown iff the first gate
passed and the orphan list is non-empty (each dialog at most once). -/
theorem OnClickAccept_gates (GetKeyName : DWORD → WString) (a : AcceptAnswers)
    (hwnd : HANDLE) :
    (OnClickAccept GetKeyName a (ApplyRemappings hwnd a.saveResult)).count
        Event.ApplyRemappings
      = (if (a.isSuccess = ErrorType.NoError ∨ a.partialConfirmed = true)
            ∧ (a.orphanedKeys = [] ∨ a.orphanResult = ContentDialogResult.Primary)
          then 1 else 0)
    ∧ (OnClickAccept GetKeyName a (ApplyRemappings hwnd a.saveResult)).count
        Event.PartialRemappingConfirmationDialog
      = (if a.isSuccess ≠ ErrorType.NoError then 1 else 0)
    ∧ ((OnClickAccept GetKeyName a (ApplyRemappings hwnd a.saveResult)).filter
        Event.isOrphanDialog).length
      = (if (a.isSuccess = ErrorType.NoError ∨ a.partialConfirmed = true)
            ∧ a.orphanedKeys ≠ []
          then 1 else 0) := by
  obtain ⟨v, pc, keys, res, save⟩ := a
  cases v <;> cases pc <;> cases keys <;> cases res <;>
    simp [OnClickAccept, OrphanKeysConfirmationDialog, ApplyRemappings, Event.isOrphanDialog,
      List.count_cons, List.filter_cons]

/-- C2, as stated, fails: validation reports a hard conflict, the user confirms the
partial-remapping dialog, and `OnClickAccept` invokes `ApplyRemappings`, which applies the
remappings and saves the configuration. -/
theorem OnClickAccept_conflict_confirmed_saves :
    conflictConfirmed.isSuccess = ErrorType.ConflictError
    ∧ OnClickAccept sampleKeyName conflictConfirmed
          (ApplyRemappings 9 conflictConfirmed.saveResult)
        = [Event.CheckIfRemappingsAreValid, Event.PartialRemappingConfirmationDialog,
            Event.GetOrphanedKeys, Event.ApplyRemappings, Event.ApplySingleKeyRemappings,
            Event.SaveConfigToFile, Event.PostMessage 9 WM_CLOSE] := by
  decide

/-- C2, amended. Whenever validation reports a hard conflict, `OnClickAccept` shows the
partial-remapping confirmation dialog exactly once, whatever the answers.  When the user
does not confirm it, `OnClickAccept` never invokes `ApplyRemappings` (so neither
`ApplySingleKeyRemappings` nor `SaveConfigToFile` runs), whatever the orphan list and the
answer to the orphan-keys dialog.  When the user confirms it, the conflict does not prevent
the save: `ApplyRemappings` is invoked exactly once, and `ApplySingleKeyRemappings` and
`SaveConfigToFile` are each called exactly once, if the orphan list is empty or the
orphan-keys dialog is confirmed, and none of the three happens otherwise. -/
theorem OnClickAccept_conflict_needs_confirmation (GetKeyName : DWORD → WString)
    (a : AcceptAnswers) (hwnd : HANDLE) (hv : a.isSuccess = ErrorType.ConflictError) :
    (OnClickAccept GetKeyName a (ApplyRemappings hwnd a.saveResult)).count
        Event.PartialRemappingConfirmationDialog = 1
    ∧ (a.partialConfirmed = false →
        Event.ApplyRemappings
            ∉ OnClickAccept GetKeyName a (ApplyRemappings hwnd a.saveResult)
        ∧ Event.ApplySingleKeyRemappings
            ∉ OnClickAccept GetKeyName a (ApplyRemappings hwnd a.saveResult)
        ∧ Event.SaveConfigToFile
            ∉ OnClickAccept GetKeyName a (ApplyRemappings hwnd a.saveResult))
    ∧ (a.partialConfirmed = true →
        (OnClickAccept GetKeyName a (ApplyRemappings hwnd a.saveResult)).count
            Event.ApplyRemappings
          = (if a.orphanedKeys = [] ∨ a.orphanResult = ContentDialogResult.Primary
              then 1 else 0)
        ∧ (OnClickAccept GetKeyName a (ApplyRemappings hwnd a.saveResult)).count
            Event.ApplySingleKeyRemappings
          = (if a.orphanedKeys = [] ∨ a.orphanResult = ContentDialogResult.Primary
              then 1 else 0)
        ∧ (OnClickAccept GetKeyName a (ApplyRemappings hwnd a.saveResult)).count
            Event.SaveConfigToFile
          = (if a.orphanedKeys = [] ∨ a.orphanResult = ContentDialogResult.Primary
              then 1 else 0)) := by
  obtain ⟨v, pc, keys, res, save⟩ := a
  simp only at hv
  subst hv
  cases pc <;> cases keys <;> cases res <;>
    simp [OnClickAccept, OrphanKeysConfirmationDialog, ApplyRemappings, List.count_cons]

/-- C2 amended, at three hard conflicts: declined (with an orphaned key whose dialog would
be confirmed), confirmed with no orphaned key, and confirmed with an orphaned key whose
dialog is refused. -/
theorem OnClickAccept_conflict_needs_confirmation_witness :
    conflictDeclined.isSuccess = ErrorType.ConflictError
    ∧ Event.SaveConfigToFile
        ∉ OnClickAccept sampleKeyName conflictDeclined
            (ApplyRemappings 9 conflictDeclined.saveResult)
    ∧ (OnClickAccept sampleKeyName conflictConfirmed
        (ApplyRemappings 9 conflictConfirmed.saveResult)).count Event.SaveConfigToFile = 1
    ∧ (OnClickAccept sampleKeyName conflictConfirmedOrphanRefused
        (ApplyRemappings 9 conflictConfirmedOrphanRefused.saveResult)).count
          Event.SaveConfigToFile = 0 :=
  ⟨rfl,
    ((OnClickAccept_conflict_needs_confirmation sampleKeyName conflictDeclined 9 rfl).2.1
      rfl).2.2,
    ((OnClickAccept_conflict_needs_confirmation sampleKeyName conflictConfirmed 9 rfl).2.2
      rfl).2.2,
    ((OnClickAccept_conflict_needs_confirmation sampleKeyName conflictConfirmedOrphanRefused
      9 rfl).2.2 rfl).2.2⟩

end KBMEditor

/-! ## The engine: single instance and shutdown -/

namespace KBMEngine

/-- C3. Single instance: whenever the creation of the instance mutex reports
`ERROR_ALREADY_EXISTS`, `wWinMain` returns exit code 0 immediately (after the start-up calls
and one warning): the tracing provider is not registered, no parent-process waiter is
registered, the keyboard hook is neither installed nor removed, and the message loop is not
entered. -/
theorem wWinMain_already_running (env : Env) (lpCmdLine : WString)
    (h : env.lastError = ERROR_ALREADY_EXISTS) :
    (wWinMain env lpCmdLine).exitCode = some 0
    ∧ (wWinMain env lpCmdLine).trace
        = [Event.init_apartment, Event.init_logger, Event.InitUnhandledExceptionHandler_x64,
            Event.CreateMutex]
          ++ (if env.mutex.isNone then [Event.Logger_error 26] else [])
          ++ [Event.Logger_warn 31]
    ∧ Event.RegisterProvider ∉ (wWinMain env lpCmdLine).trace
    ∧ (∀ pid tid, Event.OnProcessTerminate pid tid ∉ (wWinMain env lpCmdLine).trace)
    ∧ Event.StartLowlevelKeyboardHook ∉ (wWinMain env lpCmdLine).trace
    ∧ Event.StopLowlevelKeyboardHook ∉ (wWinMain env lpCmdLine).trace
    ∧ Event.run_message_loop ∉ (wWinMain env lpCmdLine).trace := by
  cases hm : env.mutex <;> simp [wWinMain, h, hm]

/-- C3 at a concrete second instance with a parent process id on the command line. -/
theorem wWinMain_already_running_witness :
    secondInstance.lastError = ERROR_ALREADY_EXISTS
    ∧ (wWinMain secondInstance ['4', '2']).exitCode = some 0
    ∧ (wWinMain secondInstance ['4', '2']).trace
        = [Event.init_apartment, Event.init_logger, Event.InitUnhandledExceptionHandler_x64,
            Event.CreateMutex, Event.Logger_warn 31] :=
  ⟨rfl, (wWinMain_already_running secondInstance ['4', '2'] rfl).1,
    (wWinMain_already_running secondInstance ['4', '2'] rfl).2.1⟩

/-- C4. Every run of `wWinMain` that returns does so with exit code 0 and with its
acquisitions undone: the hook and provider calls of the run are either none at all, or
`RegisterProvider`, `StartLowlevelKeyboardHook`, `StopLowlevelKeyboardHook`,
`UnregisterProvider` in this order (one stop for the one start, one unregistration for the
one registration, hook first), so that at the return the hook is not installed and the
provider is not registered. -/
theorem wWinMain_returns_clean (env : Env) (lpCmdLine : WString) (code : Int)
    (h : (wWinMain env lpCmdLine).exitCode = some code) :
    code = 0
    ∧ ((wWinMain env lpCmdLine).trace.filter Event.isLifecycle = []
        ∨ (wWinMain env lpCmdLine).trace.filter Event.isLifecycle
            = [Event.RegisterProvider, Event.StartLowlevelKeyboardHook,
                Event.StopLowlevelKeyboardHook, Event.UnregisterProvider])
    ∧ (wWinMain env lpCmdLine).trace.count Event.StopLowlevelKeyboardHook
        = (wWinMain env lpCmdLine).trace.count Event.StartLowlevelKeyboardHook
    ∧ (wWinMain env lpCmdLine).trace.count Event.UnregisterProvider
        = (wWinMain env lpCmdLine).trace.count Event.RegisterProvider
    ∧ resourcesAfter (wWinMain env lpCmdLine).trace
        = { hookInstalled := false, providerRegistered := false } := by
  unfold wWinMain at h ⊢
  cases hm : env.mutex <;> cases hl : env.messageLoopReturns <;>
    cases hc : lpCmdLine <;> by_cases he : env.lastError = ERROR_ALREADY_EXISTS <;>
    simp_all [registerParentWaiter, Event.isLifecycle, resourcesAfter, Resources.step,
      List.filter_cons, List.count_cons]

/-- C4 at a concrete first instance whose message loop ends. -/
theorem wWinMain_returns_clean_witness :
    (wWinMain firstInstance ['4', '2']).exitCode = some 0
    ∧ (wWinMain firstInstance ['4', '2']).trace.filter Event.isLifecycle
        = [Event.RegisterProvider, Event.StartLowlevelKeyboardHook,
            Event.StopLowlevelKeyboardHook, Event.UnregisterProvider]
    ∧ resourcesAfter (wWinMain firstInstance ['4', '2']).trace
        = { hookInstalled := false, providerRegistered := false } :=
  ⟨by decide, by decide,
    (wWinMain_returns_clean firstInstance ['4', '2'] 0 (by decide)).2.2.2.2⟩

/-- C5, as stated, fails: in a first instance where the operating system refuses the hook,
`wWinMain` still enters `run_message_loop` right after `StartLowlevelKeyboardHook`, and goes
on to a normal return. -/
theorem wWinMain_hook_refused_enters_loop :
    hookRefused.hookInstalls = false
    ∧ wWinMain hookRefused []
        = { exitCode := some 0,
            trace := [Event.init_apartment, Event.init_logger,
              Event.InitUnhandledExceptionHandler_x64, Event.CreateMutex,
              Event.RegisterProvider, Event.StartLowlevelKeyboardHook,
              Event.run_message_loop, Event.StopLowlevelKeyboardHook,
              Event.UnregisterProvider] } := by
  decide

/-- C5, amended. `wWinMain` does not look at the outcome of installing the hook: in every
run that is not stopped by the single-instance check, `run_message_loop` is entered directly
after `StartLowlevelKeyboardHook`, and the run made when the installation fails is the run
made when it succeeds. -/
theorem wWinMain_loop_follows_hook (env : Env) (lpCmdLine : WString)
    (h : env.lastError ≠ ERROR_ALREADY_EXISTS) :
    (∃ before after, (wWinMain env lpCmdLine).trace
        = before ++ [Event.StartLowlevelKeyboardHook, Event.run_message_loop] ++ after)
    ∧ wWinMain { env with hookInstalls := false } lpCmdLine
        = wWinMain { env with hookInstalls := true } lpCmdLine := by
  refine ⟨?_, by simp [wWinMain, registerParentWaiter]⟩
  refine ⟨[Event.init_apartment, Event.init_logger, Event.InitUnhandledExceptionHandler_x64,
      Event.CreateMutex] ++ (if env.mutex.isNone then [Event.Logger_error 26] else [])
      ++ [Event.RegisterProvider] ++ registerParentWaiter env lpCmdLine,
    if env.messageLoopReturns then
      [Event.StopLowlevelKeyboardHook, Event.UnregisterProvider] else [], ?_⟩
  unfold wWinMain
  cases hl : env.messageLoopReturns <;> simp [h]

/-- C5 amended, at the first instance whose hook is refused. -/
theorem wWinMain_loop_follows_hook_witness :
    hookRefused.lastError ≠ ERROR_ALREADY_EXISTS
    ∧ ∃ before after, (wWinMain hookRefused []).trace
        = before ++ [Event.StartLowlevelKeyboardHook, Event.run_message_loop] ++ after :=
  ⟨by decide, (wWinMain_loop_follows_hook hookRefused [] (by decide)).1⟩

end KBMEngine

/-! ## The editor window and the suspension locker -/

namespace KBMEditor

/-- The two calls made only on account of the locker, its release and the error log of
line 107, are not made by a click on the apply button. -/
theorem lockerStep_not_mem_OnClickAccept (GetKeyName : DWORD → WString) (a : AcceptAnswers)
    (hwnd : HANDLE) (e : Event)
    (he : e = Event.EventLocker_release ∨ e = Event.Logger_error 107) :
    e ∉ OnClickAccept GetKeyName a (ApplyRemappings hwnd a.saveResult) := by
  unfold OnClickAccept
  rcases he with rfl | rfl <;> split_ifs <;>
    simp [OrphanKeysConfirmationDialog, ApplyRemappings] <;> split_ifs <;> simp

/-- No click handler releases the locker or logs the error of line 107. -/
theorem lockerStep_not_mem_clickHandler (GetKeyName : DWORD → WString) (hwnd : HANDLE)
    (i : UIInput) (e : Event)
    (he : e = Event.EventLocker_release ∨ e = Event.Logger_error 107) :
    e ∉ clickHandler GetKeyName hwnd i := by
  cases i with
  | cancelClick => rcases he with rfl | rfl <;> simp [clickHandler]
  | applyClick a => exact lockerStep_not_mem_OnClickAccept GetKeyName a hwnd e he
  | addRemapKeyClick => rcases he with rfl | rfl <;> simp [clickHandler]

/-- The message loop neither releases the locker nor logs the error of line 107. -/
theorem lockerStep_not_mem_runMessageLoop (GetKeyName : DWORD → WString)
    (clicks : List UIInput) (hwnd : HANDLE) (e : Event)
    (he : e = Event.EventLocker_release ∨ e = Event.Logger_error 107) :
    e ∉ Event.MessageLoop :: clicks.flatMap (clickHandler GetKeyName hwnd) := by
  simp only [List.mem_cons, List.mem_flatMap, not_or, not_exists, not_and]
  exact ⟨by rcases he with rfl | rfl <;> simp,
    fun i _ => lockerStep_not_mem_clickHandler GetKeyName hwnd i e he⟩

/-- Setting up the window neither releases the locker nor logs the error of line 107. -/
theorem lockerStep_not_mem_setUpWindow (env : Env) (hwnd : HANDLE) (e : Event)
    (he : e = Event.EventLocker_release ∨ e = Event.Logger_error 107) :
    e ∉ setUpWindow env hwnd := by
  rcases he with rfl | rfl <;> simp [setUpWindow]

/-- The locker is not released while it is being taken. -/
theorem release_not_mem_acquireLocker (env : Env) :
    Event.EventLocker_release ∉ acquireLocker env := by
  unfold acquireLocker
  split_ifs <;> simp

/-- Every return of `CreateEditKeyboardWindowImpl` is a scope exit: the trace of a run that
returns ends with the destructors of its locals, and the locker is not released before. -/
theorem CreateEditKeyboardWindowImpl_scope_exit (env : Env) (g : Globals)
    (hr : (CreateEditKeyboardWindowImpl env g).returned = true) :
    ∃ steps hwndLockHeld, Event.EventLocker_release ∉ steps
      ∧ (CreateEditKeyboardWindowImpl env g).trace = steps ++ scopeExit env hwndLockHeld := by
  have ha := release_not_mem_acquireLocker env
  have hreg : Event.EventLocker_release
      ∉ (if !g.isEditKeyboardWindowRegistrationCompleted then
          [Event.LoadImageW, Event.RegisterClassEx] else []) := by
    split_ifs <;> simp
  unfold CreateEditKeyboardWindowImpl at hr ⊢
  by_cases h1 : (!g.isEditKeyboardWindowRegistrationCompleted && !env.registerClassOk) = true
  · simp only [h1, if_true] at hr ⊢
    exact ⟨_, false, by simp [ha, hreg], rfl⟩
  · simp only [h1] at hr ⊢
    cases hw : env.window with
    | none =>
      simp only [hw] at hr ⊢
      exact ⟨_, false, by simp [ha, hreg], rfl⟩
    | some hwnd =>
      have hs := lockerStep_not_mem_setUpWindow env hwnd _ (Or.inl rfl)
      have hm : Event.EventLocker_release ∉ runMessageLoop env hwnd :=
        lockerStep_not_mem_runMessageLoop env.GetKeyName env.clicks hwnd _ (Or.inl rfl)
      cases hml : env.messageLoopReturns with
      | false => simp [hw, hml] at hr
      | true =>
        simp only [hw, hml, if_true] at hr ⊢
        exact ⟨_, true, by simp [ha, hreg, hs, hm, tearDown], rfl⟩

/-- C6. The suspension signal is released on every exit path of the editor window: whatever
the outcome of class registration and of window creation, if `EventLocker::Get` gave a
locker and `CreateEditKeyboardWindowImpl` returns, then the locker is released exactly once,
as the last step of the function, and `CreateEditKeyboardWindow` reaches `TerminateProcess`
only after that release. -/
theorem locker_released_on_return (env : Env) (g : Globals) (handle : HANDLE)
    (hl : env.locker = some handle)
    (hr : (CreateEditKeyboardWindowImpl env g).returned = true) :
    (CreateEditKeyboardWindowImpl env g).trace.count Event.EventLocker_release = 1
    ∧ ∃ body, Event.EventLocker_release ∉ body
        ∧ (CreateEditKeyboardWindowImpl env g).trace = body ++ [Event.EventLocker_release]
        ∧ CreateEditKeyboardWindow env g
            = body ++ [Event.EventLocker_release, Event.GetCurrentProcessId,
                Event.Logger_trace 382, Event.Logger_flush, Event.TerminateProcess 0] := by
  obtain ⟨steps, held, hs, ht⟩ := CreateEditKeyboardWindowImpl_scope_exit env g hr
  have hb : Event.EventLocker_release
      ∉ steps ++ (if held then [Event.mutex_unlock] else []) := by
    cases held <;> simp [hs]
  have ht2 : (CreateEditKeyboardWindowImpl env g).trace
      = (steps ++ (if held then [Event.mutex_unlock] else []))
          ++ [Event.EventLocker_release] := by
    rw [ht]
    simp [scopeExit, hl]
  refine ⟨?_, _, hb, ht2, ?_⟩
  · rw [ht2, List.count_append, List.count_eq_zero.2 hb]
    simp
  · simp [CreateEditKeyboardWindow, hr, ht2]

/-- C6 at two concrete runs: one that opens the window and returns after the message loop,
and one in which class registration fails. -/
theorem locker_released_on_return_witness :
    sampleEnv.locker = some 5
    ∧ (CreateEditKeyboardWindowImpl sampleEnv initialGlobals).returned = true
    ∧ (CreateEditKeyboardWindowImpl sampleEnv initialGlobals).trace.count
        Event.EventLocker_release = 1
    ∧ (CreateEditKeyboardWindowImpl { sampleEnv with registerClassOk := false }
        initialGlobals).trace.count Event.EventLocker_release = 1 :=
  ⟨rfl, by decide,
    (locker_released_on_return sampleEnv initialGlobals 5 rfl (by decide)).1,
    (locker_released_on_return { sampleEnv with registerClassOk := false } initialGlobals 5
      rfl (by decide)).1⟩

/-- Shape of a run of `CreateEditKeyboardWindowImpl`: the taking of the locker, then steps
that do not depend on whether a locker was obtained, then, when the function returns, the
destructors of its locals.  The steps contain neither the release of the locker nor the error
log of line 107. -/
theorem CreateEditKeyboardWindowImpl_steps (env : Env) (g : Globals) :
    ∃ steps hwndLockHeld returned globals,
      (∀ e, e = Event.EventLocker_release ∨ e = Event.Logger_error 107 → e ∉ steps)
      ∧ ∀ locker, CreateEditKeyboardWindowImpl { env with locker := locker } g
          = { returned := returned, globals := globals,
              trace := acquireLocker { env with locker := locker } ++ (steps
                ++ (if returned then scopeExit { env with locker := locker } hwndLockHeld
                    else [])) } := by
  have hreg : ∀ e, e = Event.EventLocker_release ∨ e = Event.Logger_error 107 →
      e ∉ (if !g.isEditKeyboardWindowRegistrationCompleted then
          [Event.LoadImageW, Event.RegisterClassEx] else []) := by
    intro e he
    rcases he with rfl | rfl <;> split_ifs <;> simp
  by_cases h1 : (!g.isEditKeyboardWindowRegistrationCompleted && !env.registerClassOk) = true
  · refine ⟨(if !g.isEditKeyboardWindowRegistrationCompleted then
        [Event.LoadImageW, Event.RegisterClassEx] else []) ++ [Event.MessageBox 132],
      false, true, g, ?_, fun locker => ?_⟩
    · intro e he
      rcases he with rfl | rfl <;> simp
    · unfold CreateEditKeyboardWindowImpl
      simp only [h1, if_true, List.append_assoc]
  · cases hw : env.window with
    | none =>
      refine ⟨(if !g.isEditKeyboardWindowRegistrationCompleted then
          [Event.LoadImageW, Event.RegisterClassEx] else [])
          ++ ([Event.GetForegroundWindowDesktopRect, Event.DPIAware_Convert,
            Event.CreateWindow] ++ [Event.MessageBox 163]),
        false, true, { g with isEditKeyboardWindowRegistrationCompleted := true },
        ?_, fun locker => ?_⟩
      · intro e he
        rcases he with rfl | rfl <;> simp
      · unfold CreateEditKeyboardWindowImpl
        simp only [h1, hw, if_true, List.append_assoc]
        rfl
    | some hwnd =>
      have hs := lockerStep_not_mem_setUpWindow env hwnd
      have hm := lockerStep_not_mem_runMessageLoop env.GetKeyName env.clicks hwnd
      cases hml : env.messageLoopReturns with
      | false =>
        refine ⟨(if !g.isEditKeyboardWindowRegistrationCompleted then
            [Event.LoadImageW, Event.RegisterClassEx] else [])
            ++ ([Event.GetForegroundWindowDesktopRect, Event.DPIAware_Convert,
              Event.CreateWindow] ++ (setUpWindow env hwnd ++ runMessageLoop env hwnd)),
          false, false,
          { g with
            isEditKeyboardWindowRegistrationCompleted := true
            hwndEditKeyboardNativeWindow := some hwnd
            hWndXamlIslandEditKeyboardWindow := env.xamlIsland
            xamlBridgePtr := true },
          ?_, fun locker => ?_⟩
        · intro e he
          have h₁ := hreg e he
          have h₂ := hs e he
          have h₃ := hm e he
          rcases he with rfl | rfl <;> simp_all [runMessageLoop]
        · unfold CreateEditKeyboardWindowImpl
          simp only [h1, hw, hml, List.append_assoc]
          simp [setUpWindow, runMessageLoop]
      | true =>
        refine ⟨(if !g.isEditKeyboardWindowRegistrationCompleted then
            [Event.LoadImageW, Event.RegisterClassEx] else [])
            ++ ([Event.GetForegroundWindowDesktopRect, Event.DPIAware_Convert,
              Event.CreateWindow] ++ (setUpWindow env hwnd ++ (runMessageLoop env hwnd
              ++ tearDown))),
          true, true,
          { g with
            isEditKeyboardWindowRegistrationCompleted := true
            xamlBridgePtr := false
            hWndXamlIslandEditKeyboardWindow := none
            hwndEditKeyboardNativeWindow := none },
          ?_, fun locker => ?_⟩
        · intro e he
          have h₁ := hreg e he
          have h₂ := hs e he
          have h₃ := hm e he
          rcases he with rfl | rfl <;> simp_all [runMessageLoop, tearDown]
        · unfold CreateEditKeyboardWindowImpl
          simp only [h1, hw, hml, List.append_assoc]
          simp [setUpWindow, runMessageLoop]

/-- C7, as stated, fails: in the sample run (class registered, window created, one
remapping loaded, one accepted apply, message loop ended) the run that holds a locker differs
from the run without one by more than the error log of line 107.  With that entry erased the
two traces are still not equal: the run with a locker ends with the release of the locker,
which the run without one never makes. -/
theorem locker_failure_release_differs :
    (CreateEditKeyboardWindowImpl { sampleEnv with locker := none } initialGlobals).trace.erase
        (Event.Logger_error 107)
      ≠ (CreateEditKeyboardWindowImpl sampleEnv initialGlobals).trace
    ∧ (CreateEditKeyboardWindowImpl sampleEnv initialGlobals).trace
      = (CreateEditKeyboardWindowImpl { sampleEnv with locker := none }
          initialGlobals).trace.erase (Event.Logger_error 107)
        ++ [Event.EventLocker_release]
    ∧ Event.EventLocker_release
      ∉ (CreateEditKeyboardWindowImpl { sampleEnv with locker := none }
          initialGlobals).trace := by
  decide

/-- C7, amended. Failure to take the suspension signal is not fatal to the editor.  For every
input, the run of `CreateEditKeyboardWindowImpl` in which `EventLocker::Get` gives no value
makes, after the error log of line 107, the calls of window registration (unless the class
is registered already), window creation, state loading, the message loop with its click
handlers, and teardown, stopping only where the run with a locker stops too (a failed
registration, a null window, a message loop that never ends).  It returns or not as the run
in which `EventLocker::Get` gives a value and leaves the same file-scope variables.  The two
runs differ in exactly two calls: the run without a locker logs the one error entry of line
107, which the other does not, and the run with a locker releases it as its last step when
it returns, which the run without one does not. -/
theorem locker_failure_same_steps (env : Env) (g : Globals) (handle : HANDLE) :
    (CreateEditKeyboardWindowImpl { env with locker := none } g).trace
      = [Event.Logger_trace 103, Event.EventLocker_Get, Event.Logger_error 107,
          Event.Logger_trace 110]
        ++ (if g.isEditKeyboardWindowRegistrationCompleted = true then []
            else [Event.LoadImageW, Event.RegisterClassEx])
        ++ (if g.isEditKeyboardWindowRegistrationCompleted = false
              ∧ env.registerClassOk = false then
            [Event.MessageBox 132]
          else
            [Event.GetForegroundWindowDesktopRect, Event.DPIAware_Convert,
              Event.CreateWindow]
            ++ env.window.elim [Event.MessageBox 163] (fun hwnd =>
              [Event.SetForegroundWindow hwnd, Event.mutex_lock, Event.mutex_unlock,
                Event.XamlBridge hwnd, Event.InitDesktopWindowsXamlSource,
                Event.xaml 190 248, Event.singleKeyRemapBuffer_clear,
                Event.SetUIState hwnd, Event.PreProcessRemapTable]
              ++ env.singleKeyRemapCopy.map
                  (fun row => Event.AddNewControlKeyRemapRow (some row))
              ++ [Event.xaml 269 352, Event.ShowWindow hwnd, Event.UpdateWindow hwnd,
                Event.MessageLoop]
              ++ env.clicks.flatMap (clickHandler env.GetKeyName hwnd)
              ++ (if env.messageLoopReturns = true then
                  [Event.mutex_lock, Event.ResetUIState, Event.ClearRegisteredKeyDelays,
                    Event.ClearXamlIslands, Event.mutex_unlock]
                else [])))
    ∧ (CreateEditKeyboardWindowImpl { env with locker := none } g).returned
        = (CreateEditKeyboardWindowImpl { env with locker := some handle } g).returned
    ∧ (CreateEditKeyboardWindowImpl { env with locker := none } g).globals
        = (CreateEditKeyboardWindowImpl { env with locker := some handle } g).globals
    ∧ (CreateEditKeyboardWindowImpl { env with locker := none } g).trace.count
        (Event.Logger_error 107) = 1
    ∧ (CreateEditKeyboardWindowImpl { env with locker := some handle } g).trace.count
        (Event.Logger_error 107) = 0
    ∧ Event.EventLocker_release
        ∉ (CreateEditKeyboardWindowImpl { env with locker := none } g).trace
    ∧ (CreateEditKeyboardWindowImpl { env with locker := some handle } g).trace
      = (CreateEditKeyboardWindowImpl { env with locker := none } g).trace.erase
          (Event.Logger_error 107)
        ++ (if (CreateEditKeyboardWindowImpl { env with locker := some handle } g).returned
            then [Event.EventLocker_release] else [])
    ∧ (CreateEditKeyboardWindowImpl { env with locker := none } g).trace.erase
        (Event.Logger_error 107)
      = (CreateEditKeyboardWindowImpl { env with locker := some handle } g).trace.filter
          (fun e => !e.isLockerRelease) := by
  refine ⟨?_, ?_⟩
  · obtain ⟨locker, regOk, window, island, copy, keyName, clicks, loops⟩ := env
    obtain ⟨gIsland, gReg, gNative, gPtr⟩ := g
    cases gReg <;> cases regOk <;> cases window <;> cases loops <;>
      simp [CreateEditKeyboardWindowImpl, acquireLocker, scopeExit, tearDown,
        runMessageLoop, setUpWindow]
  obtain ⟨steps, held, returned, globals, hsteps, hrun⟩ :=
    CreateEditKeyboardWindowImpl_steps env g
  have hrel : Event.EventLocker_release ∉ steps := hsteps _ (Or.inl rfl)
  have herr : Event.Logger_error 107 ∉ steps := hsteps _ (Or.inr rfl)
  have hfilter : steps.filter (fun e => !e.isLockerRelease) = steps := by
    refine List.filter_eq_self.2 (fun e he => ?_)
    cases e <;> simp_all [Event.isLockerRelease]
  have h0 := hrun none
  have h1 := hrun (some handle)
  simp only [] at h0 h1
  rw [h0, h1]
  have hcount : steps.count (Event.Logger_error 107) = 0 := List.count_eq_zero.2 herr
  clear h0 h1 hrun
  simp only [List.filter_append, hfilter]
  cases returned <;> cases held <;>
    simp [acquireLocker, scopeExit, List.count_cons, List.count_append, List.filter_cons,
      Event.isLockerRelease, hcount, hrel, herr]

/-- C7 amended, at the sample run: without a locker the window is registered, created,
loaded, run and torn down exactly as with one, the error log of line 107 and the release
apart. -/
theorem locker_failure_same_steps_witness :
    (CreateEditKeyboardWindowImpl { sampleEnv with locker := none } initialGlobals).trace
      = [Event.Logger_trace 103, Event.EventLocker_Get, Event.Logger_error 107,
          Event.Logger_trace 110, Event.LoadImageW, Event.RegisterClassEx,
          Event.GetForegroundWindowDesktopRect, Event.DPIAware_Convert, Event.CreateWindow,
          Event.SetForegroundWindow 9, Event.mutex_lock, Event.mutex_unlock,
          Event.XamlBridge 9, Event.InitDesktopWindowsXamlSource, Event.xaml 190 248,
          Event.singleKeyRemapBuffer_clear, Event.SetUIState 9, Event.PreProcessRemapTable,
          Event.AddNewControlKeyRemapRow (some (65, 66)), Event.xaml 269 352,
          Event.ShowWindow 9, Event.UpdateWindow 9, Event.MessageLoop,
          Event.CheckIfRemappingsAreValid, Event.GetOrphanedKeys, Event.ApplyRemappings,
          Event.ApplySingleKeyRemappings, Event.SaveConfigToFile,
          Event.PostMessage 9 WM_CLOSE, Event.mutex_lock, Event.ResetUIState,
          Event.ClearRegisteredKeyDelays, Event.ClearXamlIslands, Event.mutex_unlock]
    ∧ (CreateEditKeyboardWindowImpl { sampleEnv with locker := some 5 } initialGlobals).trace
      = (CreateEditKeyboardWindowImpl { sampleEnv with locker := none }
          initialGlobals).trace.erase (Event.Logger_error 107)
        ++ [Event.EventLocker_release] :=
  ⟨(locker_failure_same_steps sampleEnv initialGlobals 5).1.trans (by decide),
    (locker_failure_same_steps sampleEnv initialGlobals 5).2.2.2.2.2.2.1.trans (by decide)⟩

/-- C8 on the code: when `SaveConfigToFile` returns `false`, `ApplyRemappings` goes on to
post `WM_CLOSE` and makes exactly the calls it makes when the save succeeds; the result is
stored in `saveResult` and never read. -/
theorem ApplyRemappings_save_result_unread (hwnd : HANDLE) :
    ApplyRemappings hwnd false
        = [Event.ApplySingleKeyRemappings, Event.SaveConfigToFile,
            Event.PostMessage hwnd WM_CLOSE]
    ∧ ApplyRemappings hwnd false = ApplyRemappings hwnd true := by
  simp [ApplyRemappings]

end KBMEditor

/-! ## The engine: parent-process monitoring -/

namespace KBMEngine

/-- C9. The parent-termination callback registered by `wWinMain` holds the id of the main
thread, and for every error code (`ERROR_SUCCESS` or not) it posts exactly one message,
`WM_QUIT`, to that thread; it calls neither `StopLowlevelKeyboardHook` nor
`Trace::UnregisterProvider`. -/
theorem parentExitCallback_posts_quit (env : Env) (lpCmdLine pid : WString)
    (mainThreadId : DWORD) (err : Int)
    (h : Event.OnProcessTerminate pid mainThreadId ∈ (wWinMain env lpCmdLine).trace) :
    mainThreadId = env.currentThreadId
    ∧ (parentExitCallback mainThreadId err).filter Event.isPostThreadMessage
        = [Event.PostThreadMessage env.currentThreadId WM_QUIT 0 0]
    ∧ (parentExitCallback mainThreadId err).count
        (Event.PostThreadMessage env.currentThreadId WM_QUIT 0 0) = 1
    ∧ Event.StopLowlevelKeyboardHook ∉ parentExitCallback mainThreadId err
    ∧ Event.UnregisterProvider ∉ parentExitCallback mainThreadId err := by
  have htid : mainThreadId = env.currentThreadId := by
    unfold wWinMain registerParentWaiter at h
    cases hm : env.mutex <;> cases hl : env.messageLoopReturns <;>
      cases hc : lpCmdLine <;> by_cases he : env.lastError = ERROR_ALREADY_EXISTS <;>
      simp_all
  subst htid
  by_cases he : err = ERROR_SUCCESS <;>
    simp [parentExitCallback, he, Event.isPostThreadMessage, List.filter_cons,
      List.count_cons]

/-- C9 at a concrete first instance, for a failed wait (error code 5). -/
theorem parentExitCallback_posts_quit_witness :
    Event.OnProcessTerminate ['4', '2'] 7 ∈ (wWinMain firstInstance ['4', '2']).trace
    ∧ parentExitCallback 7 5
        = [Event.Logger_error 44, Event.Logger_trace 51,
            Event.PostThreadMessage 7 WM_QUIT 0 0]
    ∧ (parentExitCallback 7 5).filter Event.isPostThreadMessage
        = [Event.PostThreadMessage firstInstance.currentThreadId WM_QUIT 0 0] :=
  ⟨by decide, by decide,
    (parentExitCallback_posts_quit firstInstance ['4', '2'] ['4', '2'] 7 5 (by decide)).2.1⟩

/-- C10. Parent-exit monitoring is optional: in every run of `wWinMain` that is not stopped
by the single-instance check, `ProcessWaiter::OnProcessTerminate` is called exactly once
(with the command line as process id and the main thread id) if the command line is
non-empty, and not at all if it is empty; in both cases `StartLowlevelKeyboardHook` is
called once and `run_message_loop` is entered once. -/
theorem wWinMain_parent_waiter_optional (env : Env) (lpCmdLine : WString)
    (h : env.lastError ≠ ERROR_ALREADY_EXISTS) :
    (wWinMain env lpCmdLine).trace.filter Event.isOnProcessTerminate
        = (if lpCmdLine = [] then []
            else [Event.OnProcessTerminate lpCmdLine env.currentThreadId])
    ∧ (wWinMain env lpCmdLine).trace.count Event.StartLowlevelKeyboardHook = 1
    ∧ (wWinMain env lpCmdLine).trace.count Event.run_message_loop = 1 := by
  unfold wWinMain registerParentWaiter
  cases hm : env.mutex <;> cases hl : env.messageLoopReturns <;>
    cases hc : lpCmdLine <;>
    simp_all [Event.isOnProcessTerminate, List.filter_cons, List.count_cons]

/-- C10 at a concrete first instance started with a parent process id. -/
theorem wWinMain_parent_waiter_optional_witness :
    firstInstance.lastError ≠ ERROR_ALREADY_EXISTS
    ∧ (wWinMain firstInstance ['4', '2']).trace.filter Event.isOnProcessTerminate
        = [Event.OnProcessTerminate ['4', '2'] 7]
    ∧ (wWinMain firstInstance []).trace.filter Event.isOnProcessTerminate = [] :=
  ⟨by decide, (wWinMain_parent_waiter_optional firstInstance ['4', '2'] (by decide)).1,
    (wWinMain_parent_waiter_optional firstInstance [] (by decide)).1⟩

end KBMEngine

/-! ## The orphan-keys dialog: its text -/

namespace KBMEditor

/-- The loop of lines 58-62, started from any string, appends each name and its separator. -/
theorem foldl_append_names (GetKeyName : DWORD → WString) (keys : List DWORD)
    (init : WString) :
    keys.foldl (fun acc k => acc ++ GetKeyName k ++ [',', ' ']) init
      = init ++ keys.flatMap (fun k => GetKeyName k ++ [',', ' ']) := by
  induction keys generalizing init with
  | nil => simp
  | cons k ks ih =>
    rw [List.foldl_cons, ih, List.flatMap_cons]
    simp only [List.append_assoc]

/-- For a non-empty list of keys the loop builds the joined names plus one separator. -/
theorem orphanKeyAppended_eq_joined (GetKeyName : DWORD → WString) (keys : List DWORD)
    (hne : keys ≠ []) :
    orphanKeyAppended GetKeyName keys
      = [',', ' '].intercalate (keys.map GetKeyName) ++ [',', ' '] := by
  unfold orphanKeyAppended
  rw [foldl_append_names]
  induction keys with
  | nil => exact absurd rfl hne
  | cons k ks ih =>
    cases ks with
    | nil => simp [List.intercalate]
    | cons k2 ks2 =>
      have h := ih (by simp)
      simp only [List.nil_append] at h ⊢
      rw [List.flatMap_cons, h]
      simp [List.intercalate, List.intersperse]

/-- C12. For every non-empty list of orphaned keys, the text shown by
`OrphanKeysConfirmationDialog` is exactly the keys' names (`GetKeyName` of each key, in list
order) joined by `", "`, the separator appended after the last name being cut off; for the
empty list `length() - 2` wraps to `2^64 - 2`, and the text is the empty string.  In both
cases the `substr` call is in range (it does not throw) and gives the text shown.  The string
built by the loop is one a `std::wstring` can hold: its length is below `2^64`. -/
theorem OrphanKeysConfirmationDialog_text (GetKeyName : DWORD → WString)
    (keys : List DWORD) (res : ContentDialogResult)
    (hsize : (orphanKeyAppended GetKeyName keys).length < SIZE_T_MOD) :
    (keys ≠ [] → (OrphanKeysConfirmationDialog GetKeyName keys res).2
        = [Event.ContentDialog_ShowAsync ([',', ' '].intercalate (keys.map GetKeyName))])
    ∧ (keys = [] → orphanKeyLengthMinus2 GetKeyName keys = SIZE_T_MOD - 2
        ∧ (OrphanKeysConfirmationDialog GetKeyName keys res).2
            = [Event.ContentDialog_ShowAsync []])
    ∧ substr (orphanKeyAppended GetKeyName keys) 0 (orphanKeyLengthMinus2 GetKeyName keys)
        = some (orphanKeyString GetKeyName keys) := by
  have hstr : orphanKeyString GetKeyName keys
      = (orphanKeyAppended GetKeyName keys).take (orphanKeyLengthMinus2 GetKeyName keys) := by
    simp [orphanKeyString, orphanKeyAppended, orphanKeyLengthMinus2]
  refine ⟨fun hne => ?_, fun hnil => ?_, ?_⟩
  · have hj := orphanKeyAppended_eq_joined GetKeyName keys hne
    have hlen : orphanKeyLengthMinus2 GetKeyName keys
        = ([',', ' '].intercalate (keys.map GetKeyName)).length := by
      unfold orphanKeyLengthMinus2
      rw [hj] at hsize ⊢
      simp only [List.length_append, List.length_cons, List.length_nil, SIZE_T_MOD] at hsize ⊢
      omega
    simp only [OrphanKeysConfirmationDialog, hstr, hlen]
    rw [hj, List.take_left]
  · subst hnil
    refine ⟨by simp [orphanKeyLengthMinus2, orphanKeyAppended, SIZE_T_MOD], ?_⟩
    simp [OrphanKeysConfirmationDialog, hstr, orphanKeyAppended]
  · simp [substr, hstr]

/-- C12 at three keys named `A`, `Ctrl` and the empty name, and at the empty list. -/
theorem OrphanKeysConfirmationDialog_text_witness :
    (orphanKeyAppended threeKeyNames [65, 162, 65]).length < SIZE_T_MOD
    ∧ (OrphanKeysConfirmationDialog threeKeyNames [65, 162, 65]
        ContentDialogResult.Primary).2
        = [Event.ContentDialog_ShowAsync ['A', ',', ' ', 'C', 't', 'r', 'l', ',', ' ', 'A']]
    ∧ orphanKeyLengthMinus2 threeKeyNames [] = 18446744073709551614
    ∧ (OrphanKeysConfirmationDialog threeKeyNames [] ContentDialogResult.Primary).2
        = [Event.ContentDialog_ShowAsync []] :=
  ⟨by decide,
    (OrphanKeysConfirmationDialog_text threeKeyNames [65, 162, 65]
      ContentDialogResult.Primary (by decide)).1 (by decide),
    ((OrphanKeysConfirmationDialog_text threeKeyNames []
      ContentDialogResult.Primary (by decide)).2.1 rfl).1,
    ((OrphanKeysConfirmationDialog_text threeKeyNames []
      ContentDialogResult.Primary (by decide)).2.1 rfl).2⟩

end KBMEditor

/-! ## The commit protocol inside the editor window -/

namespace KBMEditor

/-- Of the calls of one click handler, those of the commit protocol are the ones the
specification gives for that click. -/
theorem filter_isCommitStep_clickHandler (GetKeyName : DWORD → WString) (hwnd : HANDLE)
    (i : UIInput) :
    (clickHandler GetKeyName hwnd i).filter Event.isCommitStep = commitSteps hwnd i := by
  cases i with
  | cancelClick => simp [clickHandler, commitSteps, Event.isCommitStep]
  | addRemapKeyClick => simp [clickHandler, commitSteps, Event.isCommitStep]
  | applyClick a =>
    obtain ⟨v, pc, keys, res, save⟩ := a
    cases v <;> cases pc <;> cases keys <;> cases res <;>
      simp [clickHandler, commitSteps, OnClickAccept, OrphanKeysConfirmationDialog,
        ApplyRemappings, Event.isCommitStep, List.filter_cons]

/-- The commit-protocol calls of the message loop are those of its clicks, in order. -/
theorem filter_isCommitStep_runMessageLoop (env : Env) (hwnd : HANDLE) :
    (runMessageLoop env hwnd).filter Event.isCommitStep
      = env.clicks.flatMap (commitSteps hwnd) := by
  simp only [runMessageLoop, List.filter_cons, Event.isCommitStep, List.filter_flatMap,
    filter_isCommitStep_clickHandler]
  simp

/-- Setting up the window makes no call of the commit protocol. -/
theorem filter_isCommitStep_setUpWindow (env : Env) (hwnd : HANDLE) :
    (setUpWindow env hwnd).filter Event.isCommitStep = [] := by
  rw [List.filter_eq_nil_iff]
  intro e he
  simp only [setUpWindow, List.mem_append, List.mem_cons, List.mem_map, List.mem_singleton,
    List.not_mem_nil, or_false] at he
  rcases he with (h | ⟨row, _, rfl⟩) | h
  · rcases h with rfl | rfl | rfl | rfl | rfl | rfl | rfl | rfl | rfl <;>
      simp [Event.isCommitStep]
  · simp [Event.isCommitStep]
  · rcases h with rfl | rfl | rfl <;> simp [Event.isCommitStep]

/-- Taking the locker makes one call of the commit protocol, `EventLocker::Get`. -/
theorem filter_isCommitStep_acquireLocker (env : Env) :
    (acquireLocker env).filter Event.isCommitStep = [Event.EventLocker_Get] := by
  unfold acquireLocker
  split_ifs <;> simp [Event.isCommitStep, List.filter_cons]

/-- C11. On acceptance the live table is swapped and persisted before the suspension signal
is lowered.  In every run of the editor window in which the suspension locker was acquired,
the calls of the commit protocol (taking and releasing the locker, `ApplySingleKeyRemappings`,
`SaveConfigToFile`, `PostMessage`) are, in the order in which the run makes them:
`EventLocker::Get` first; then, for each click dispatched by the message loop of the window
that was opened, nothing, or one `WM_CLOSE` (cancel), or `ApplySingleKeyRemappings`,
`SaveConfigToFile`, `WM_CLOSE` in this order (accepted apply); and the release of the locker
last, when the function returns.  So every `ApplySingleKeyRemappings` and every
`SaveConfigToFile` lies after the acquisition and before the release, each save directly
follows its swap, and the `WM_CLOSE` of an acceptance is posted after both. -/
theorem commit_inside_suspension (env : Env) (g : Globals) (handle : HANDLE)
    (hl : env.locker = some handle) :
    (CreateEditKeyboardWindowImpl env g).trace.filter Event.isCommitStep
      = Event.EventLocker_Get
          :: ((openedWindow env g).elim [] (fun hwnd => env.clicks.flatMap (commitSteps hwnd))
            ++ (if (CreateEditKeyboardWindowImpl env g).returned then
                [Event.EventLocker_release] else [])) := by
  have ha := filter_isCommitStep_acquireLocker env
  unfold CreateEditKeyboardWindowImpl openedWindow
  by_cases h1 : (!g.isEditKeyboardWindowRegistrationCompleted && !env.registerClassOk) = true
  · simp only [h1, if_true, List.filter_append]
    rw [ha]
    split_ifs <;> simp [scopeExit, hl, Event.isCommitStep, List.filter_cons]
  · cases hw : env.window with
    | none =>
      simp only [h1, hw, Bool.false_eq_true, if_false, List.filter_append]
      rw [ha]
      split_ifs <;> simp [scopeExit, hl, Event.isCommitStep, List.filter_cons]
    | some hwnd =>
      have hs := filter_isCommitStep_setUpWindow env hwnd
      have hm := filter_isCommitStep_runMessageLoop env hwnd
      cases hml : env.messageLoopReturns with
      | false =>
        simp only [h1, hw, hml, Bool.false_eq_true, if_false, if_true, List.filter_append]
        rw [ha, hs, hm]
        split_ifs <;> simp [Event.isCommitStep, List.filter_cons]
      | true =>
        simp only [h1, hw, hml, Bool.false_eq_true, if_false, if_true, List.filter_append]
        rw [ha, hs, hm]
        split_ifs <;> simp [scopeExit, tearDown, hl, Event.isCommitStep, List.filter_cons]

/-- C11 at a run with a new row, a declined apply and an accepted apply whose save fails. -/
theorem commit_inside_suspension_witness :
    acceptAfterDecline.locker = some 5
    ∧ (CreateEditKeyboardWindowImpl acceptAfterDecline initialGlobals).trace.filter
        Event.isCommitStep
      = [Event.EventLocker_Get, Event.ApplySingleKeyRemappings, Event.SaveConfigToFile,
          Event.PostMessage 9 WM_CLOSE, Event.EventLocker_release] :=
  ⟨rfl, (commit_inside_suspension acceptAfterDecline initialGlobals 5 rfl).trans
    (by decide)⟩

end KBMEditor
